import Mathlib

/-!
# Verification of `sched/pg_worker.c` (NuttX demand-paging fill coordinator)

Shallow embedding of the page fill worker thread of `sched/pg_worker.c`
(2010 NuttX snapshot).  The global state of the coordinator is collected in
the structure `Paging.PgState`; the architecture-specific collaborators
(`up_checkmapping`, `up_allocpage`, `up_fillpage`) and the system clock are
collected in an oracle environment `Paging.Env`.  External side effects
(task unblocking, priority setting, signalling the worker, page allocation,
fill initiation) are recorded in an event trace; fatal assertions
(`ASSERT` / `DEBUGASSERT`) are modelled by the `fatal` outcome of `PRes`.

Preprocessor-configuration notes, relevant to several theorems below:

* `g_fillresult` (line 106) and `pg_callback` (line 158) are declared under
  `#ifndef CONFIG_PAGING_BLOCKINGFILL`, i.e. they exist only in the
  non-blocking configuration.
* The worker body at lines 444-510 (completion/result processing) is guarded
  by `#ifdef CONFIG_PAGING_BLOCKINGFILL`, i.e. it is selected exactly in the
  configuration in which `g_fillresult` does *not* exist; the synchronous
  drain loop at lines 512-533 sits in the `#else` arm and is therefore the
  body that is actually compiled in the non-blocking configuration.
* The timeout branch at lines 486-492 is guarded by the malformed directive
  `#if defined() && defined(CONFIG_PAGING_TIMEOUT_TICKS)`, and the backing
  variable is declared `status uint32_t g_starttime;` (line 113, `status`
  instead of `static`), so the timeout check is never part of a compiling
  translation unit.

Both worker-arm bodies are embedded (`pg_worker_checkbody` for lines
450-509, `pg_worker_drain` for lines 516-532) so that each can be compared
with the specification.
-/

namespace Paging

/-- Result codes, as in `errno.h`: `OK` is 0, `EBUSY` is 16, `ENOSYS` is 38.
The code stores negated error numbers (`-EBUSY`, `-ENOSYS`). -/
def OK : Int := 0

/-- `EBUSY` errno value (16). -/
def EBUSY : Int := 16

/-- `ENOSYS` errno value (38). -/
def ENOSYS : Int := 38

/-- Configured default priority of the page fill worker
(`CONFIG_PAGING_DEFPRIO`; the NuttX default value is 50). -/
def CONFIG_PAGING_DEFPRIO : Nat := 50

/-- Configured fill timeout budget in clock ticks
(`CONFIG_PAGING_TIMEOUT_TICKS`); a representative concrete value. -/
def CONFIG_PAGING_TIMEOUT_TICKS : Nat := 10

/-- A task control block, reduced to the fields this file reads:
the task id and `sched_priority`. -/
structure Tcb where
  pid : Nat
  sched_priority : Nat
deriving DecidableEq

/-- Externally visible side effects of the coordinator, in call order:
`sched_setpriority` on the worker, `up_unblock_task`, `up_allocpage`,
`up_fillpage`, and the `kill(g_pgworker, SIGWORK)` wake signal. -/
inductive Event where
  | setprio (p : Nat)
  | unblock (t : Tcb)
  | allocpage (t : Tcb)
  | fillpage (t : Tcb)
  | signal
deriving DecidableEq

/-- The mutable global state of `pg_worker.c`:
* `g_waitingforfill` — the prioritized queue of blocked faulting tasks
  (descending `sched_priority`, FIFO among equals);
* `g_pendingfilltcb` — the task whose fill is in flight, `none` when idle;
* `g_fillresult` — result of the last completed fill (`-EBUSY` = no result
  yet);
* `g_starttime` — tick at which the current fill was started;
* `worker_prio` — `sched_priority` of the worker thread's own TCB
  (`sched_gettcb(g_pgworker)`). -/
structure PgState where
  g_waitingforfill : List Tcb
  g_pendingfilltcb : Option Tcb
  g_fillresult : Int
  g_starttime : Nat
  worker_prio : Nat
deriving DecidableEq

/-- Outcome of a coordinator operation: normal return carrying the new
state and the trace of external calls made, or a fatal assertion failure
(`ASSERT`/`DEBUGASSERT`) carrying the calls made before the crash. -/
inductive PRes (α : Type) where
  | ok (s : α) (events : List Event)
  | fatal (events : List Event)
deriving DecidableEq

/-- Oracles for the architecture-specific collaborators: result of
`up_checkmapping` (`OK` means the page is already mapped), result of
`up_allocpage`, result of `up_fillpage` (start status in the non-blocking
variant, fill outcome in the blocking variant), and the current value of
`g_system_timer`. -/
structure Env where
  up_checkmapping : Tcb → Int
  up_allocpage : Tcb → Int
  up_fillpage : Tcb → Int
  g_system_timer : Nat

/-- `pg_callback` (lines 158-202, non-blocking configuration only).
If `g_pendingfilltcb` is non-NULL: compute the larger of the pending task's
priority and the priority of the head of `g_waitingforfill`, boost the
worker to that priority if it exceeds the worker's current priority,
normalize a `-EBUSY` result to `-ENOSYS`, and store it in `g_fillresult`.
In any event, signal the worker (`kill(g_pgworker, SIGWORK)`). -/
def pg_callback (s : PgState) (tcb : Tcb) (result : Int) : PgState × List Event :=
  match s.g_pendingfilltcb with
  | some pending =>
      let priority :=
        match s.g_waitingforfill.head? with
        | some htcb =>
            if pending.sched_priority < htcb.sched_priority then
              htcb.sched_priority
            else
              pending.sched_priority
        | none => pending.sched_priority
      let s1 :=
        if s.worker_prio < priority then { s with worker_prio := priority } else s
      let result1 := if result = -EBUSY then -ENOSYS else result
      ({ s1 with g_fillresult := result1 },
       (if s.worker_prio < priority then [Event.setprio priority] else []) ++
         [Event.signal])
  | none => (s, [Event.signal])

/-- `pg_alldone` (lines 338-343): clear `g_pendingfilltcb` and restore the
worker (the running task, head of `g_readytorun`) to
`CONFIG_PAGING_DEFPRIO`. -/
def pg_alldone (s : PgState) : PgState × List Event :=
  ({ s with g_pendingfilltcb := none, worker_prio := CONFIG_PAGING_DEFPRIO },
   [Event.setprio CONFIG_PAGING_DEFPRIO])

/-- `pg_fillcomplete` (lines 370-377): `up_unblock_task(g_pendingfilltcb)`.
The slot is *not* cleared here.  Calling it with `g_pendingfilltcb == NULL`
dereferences a null pointer inside `up_unblock_task`, modelled as a fatal
outcome. -/
def pg_fillcomplete (s : PgState) : PRes PgState :=
  match s.g_pendingfilltcb with
  | some pending => .ok s [Event.unblock pending]
  | none => .fatal []

/-- `pg_startfill`, non-blocking `up_fillpage` variant (lines 231-312 with
`CONFIG_PAGING_BLOCKINGFILL` undefined).  `dq_remfirst` pops the head of
`g_waitingforfill` into `g_pendingfilltcb` (writing NULL when the queue is
empty).  If a task was dequeued: `up_checkmapping` returning `OK` means the
page is already mapped, so the task is unblocked and the slot cleared with
no allocation and no fill; otherwise `up_allocpage` runs under
`DEBUGASSERT(result == OK)`, then the asynchronous
`up_fillpage(tcb, vpage, pg_callback)` under `DEBUGASSERT(result == OK)`,
and `g_starttime = g_system_timer` is recorded (lines 296-298, timeout
configuration). -/
def pg_startfill_nb (env : Env) (s : PgState) : PRes PgState :=
  match s.g_waitingforfill with
  | [] => .ok { s with g_pendingfilltcb := none } []
  | tcb :: rest =>
      let s0 := { s with g_pendingfilltcb := some tcb, g_waitingforfill := rest }
      if env.up_checkmapping tcb = OK then
        .ok { s0 with g_pendingfilltcb := none } [Event.unblock tcb]
      else if env.up_allocpage tcb ≠ OK then
        .fatal [Event.allocpage tcb]
      else if env.up_fillpage tcb ≠ OK then
        .fatal [Event.allocpage tcb, Event.fillpage tcb]
      else
        .ok { s0 with g_starttime := env.g_system_timer }
          [Event.allocpage tcb, Event.fillpage tcb]

/-- `pg_startfill`, blocking `up_fillpage` variant (lines 231-312 with
`CONFIG_PAGING_BLOCKINGFILL` defined).  Identical to the non-blocking
variant up to the fill call; `up_fillpage(tcb, vpage)` performs the load
synchronously under `DEBUGASSERT(result == OK)` and no start time is
recorded. -/
def pg_startfill_bl (env : Env) (s : PgState) : PRes PgState :=
  match s.g_waitingforfill with
  | [] => .ok { s with g_pendingfilltcb := none } []
  | tcb :: rest =>
      let s0 := { s with g_pendingfilltcb := some tcb, g_waitingforfill := rest }
      if env.up_checkmapping tcb = OK then
        .ok { s0 with g_pendingfilltcb := none } [Event.unblock tcb]
      else if env.up_allocpage tcb ≠ OK then
        .fatal [Event.allocpage tcb]
      else if env.up_fillpage tcb ≠ OK then
        .fatal [Event.allocpage tcb, Event.fillpage tcb]
      else
        .ok s0 [Event.allocpage tcb, Event.fillpage tcb]

/-- Insertion into `g_waitingforfill` in descending `sched_priority` order,
FIFO among equal priorities (`prio_dq_add` semantics): the new task is
placed before the first queued task of strictly lower priority. -/
def prioInsert (t : Tcb) : List Tcb → List Tcb
  | [] => [t]
  | x :: xs =>
      if x.sched_priority < t.sched_priority then t :: x :: xs
      else x :: prioInsert t xs

/-- Modelled from the spec: the fault-handler entry point `pg_miss`
(`sched/pg_miss.c`, not under `src/`) — "enqueue task for fill — insert
into the Fault Queue in priority order, then wake the worker", with the
priority escalation of the spec ("Priority Escalation runs whenever a new
waiter could outrank the in-flight task"; "the priority of the page worker
task may be boosted"): the worker's priority is raised to the faulting
task's priority when that is higher. -/
def pg_miss (s : PgState) (t : Tcb) : PgState :=
  { s with
    g_waitingforfill := prioInsert t s.g_waitingforfill,
    worker_prio :=
      if s.worker_prio < t.sched_priority then t.sched_priority
      else s.worker_prio }

/-- One pass of the worker arm at lines 450-509 (completion/result
processing; the arm selected by the `#ifdef CONFIG_PAGING_BLOCKINGFILL` at
line 444).  If `g_pendingfilltcb` is non-NULL and `g_fillresult ≠ -EBUSY`:
`ASSERT(g_fillresult == OK)` (fatal on any other value), then
`pg_fillcomplete()`, then `pg_startfill()` if the queue is non-empty, else
`pg_alldone()`.  The `else` timeout branch (lines 487-491) is guarded by
the malformed `#if defined() && defined(CONFIG_PAGING_TIMEOUT_TICKS)` and
is therefore not part of the body: with a pending fill and no result, the
pass does nothing.  If `g_pendingfilltcb` is NULL, `pg_startfill()` runs
when the queue is non-empty. -/
def pg_worker_checkbody (env : Env) (s : PgState) : PRes PgState :=
  match s.g_pendingfilltcb with
  | some _ =>
      if s.g_fillresult ≠ -EBUSY then
        if s.g_fillresult ≠ OK then .fatal []
        else
          match pg_fillcomplete s with
          | .fatal ev => .fatal ev
          | .ok s1 ev1 =>
              match s1.g_waitingforfill with
              | _ :: _ =>
                  match pg_startfill_nb env s1 with
                  | .fatal ev2 => .fatal (ev1 ++ ev2)
                  | .ok s2 ev2 => .ok s2 (ev1 ++ ev2)
              | [] =>
                  let p := pg_alldone s1
                  .ok p.1 (ev1 ++ p.2)
      else .ok s []
  | none =>
      match s.g_waitingforfill with
      | _ :: _ => pg_startfill_nb env s
      | [] => .ok s []

/-- The loop of the worker arm at lines 516-528, fuelled: while
`g_waitingforfill` is non-empty, `pg_startfill()` then
`pg_fillcomplete()`. -/
def pg_worker_loop : Nat → Env → PgState → PRes PgState
  | 0, _, _ => .fatal []
  | fuel + 1, env, s =>
      match s.g_waitingforfill with
      | [] => .ok s []
      | _ :: _ =>
          match pg_startfill_nb env s with
          | .fatal ev1 => .fatal ev1
          | .ok s1 ev1 =>
              match pg_fillcomplete s1 with
              | .fatal ev2 => .fatal (ev1 ++ ev2)
              | .ok s2 ev2 =>
                  match pg_worker_loop fuel env s2 with
                  | .fatal ev3 => .fatal (ev1 ++ ev2 ++ ev3)
                  | .ok s3 ev3 => .ok s3 (ev1 ++ ev2 ++ ev3)

/-- One pass of the worker arm at lines 516-532 (the `#else` arm of the
`#ifdef CONFIG_PAGING_BLOCKINGFILL` at line 444 — the body that is
compiled when `CONFIG_PAGING_BLOCKINGFILL` is undefined): drain
`g_waitingforfill` with `pg_startfill(); pg_fillcomplete();`, then
`pg_alldone()`.  `pg_startfill` always removes the queue head, so the loop
needs at most `length` iterations; one extra unit of fuel covers the final
empty-queue test. -/
def pg_worker_drain (env : Env) (s : PgState) : PRes PgState :=
  match pg_worker_loop (s.g_waitingforfill.length + 1) env s with
  | .fatal ev => .fatal ev
  | .ok s1 ev1 =>
      let p := pg_alldone s1
      .ok p.1 (ev1 ++ p.2)

/-- State of the coordinator when the worker first reaches its suspension
point: empty queue, no pending fill, default priority (`os_start` spawns
the worker at `CONFIG_PAGING_DEFPRIO`); `g_fillresult` is a zero-initialized
static. -/
def pgInit : PgState :=
  { g_waitingforfill := []
    g_pendingfilltcb := none
    g_fillresult := 0
    g_starttime := 0
    worker_prio := CONFIG_PAGING_DEFPRIO }

/-- Observable states of the compiled (non-blocking configuration)
coordinator: states at the worker's suspension point, as transformed by the
atomic operations that can run there — a page fault (`pg_miss`), a fill
completion callback (`pg_callback`), and one full pass of the worker body
(`pg_worker_drain`, executed with interrupts disabled). -/
inductive Reachable : PgState → Prop where
  | init : Reachable pgInit
  | miss : ∀ {s} (t : Tcb), Reachable s → Reachable (pg_miss s t)
  | callback : ∀ {s} (t : Tcb) (r : Int), Reachable s →
      Reachable (pg_callback s t r).1
  | iter : ∀ {s s' : PgState} {ev : List Event} (env : Env), Reachable s →
      pg_worker_drain env s = .ok s' ev → Reachable s'

/-- The worker-priority invariant: the worker's priority dominates the
pending-fill task's priority and the fault-queue head's priority, and
equals `CONFIG_PAGING_DEFPRIO` when slot and queue are both empty. -/
def WorkerInv (s : PgState) : Prop :=
  (∀ t, s.g_pendingfilltcb = some t → t.sched_priority ≤ s.worker_prio) ∧
  (∀ t, s.g_waitingforfill.head? = some t → t.sched_priority ≤ s.worker_prio) ∧
  (s.g_pendingfilltcb = none → s.g_waitingforfill = [] →
    s.worker_prio = CONFIG_PAGING_DEFPRIO)

/-- Sample environment: every architecture call succeeds; in particular
`up_checkmapping` reports the page already mapped. -/
def env0 : Env :=
  { up_checkmapping := fun _ => OK
    up_allocpage := fun _ => OK
    up_fillpage := fun _ => OK
    g_system_timer := 0 }

/-- Sample environment: the mapping is still needed (`up_checkmapping`
returns `-EINVAL`), allocation and fill start succeed, clock at 100. -/
def envF : Env :=
  { up_checkmapping := fun _ => -22
    up_allocpage := fun _ => OK
    up_fillpage := fun _ => OK
    g_system_timer := 100 }

/-- Sample environment: mapping still needed but `up_allocpage` fails
(`-ENOMEM`). -/
def envA : Env :=
  { up_checkmapping := fun _ => -22
    up_allocpage := fun _ => -12
    up_fillpage := fun _ => OK
    g_system_timer := 100 }

/-- Sample task of priority 10. -/
def tcbA : Tcb := ⟨1, 10⟩

/-- Sample task of priority 80. -/
def tcbB : Tcb := ⟨2, 80⟩

/-- Sample environment: mapping still needed, allocation and fill start
succeed, clock at 200 (used against a fill started at tick 100). -/
def envT : Env :=
  { up_checkmapping := fun _ => -22
    up_allocpage := fun _ => OK
    up_fillpage := fun _ => OK
    g_system_timer := 200 }

/-- Sample state: a fill for `tcbA` is pending and the stored result is
`OK` (a successful completion was recorded); the queue is empty. -/
def sPend : PgState := { pgInit with g_pendingfilltcb := some tcbA }

/-- Sample state: a fill for `tcbA` is pending and the stored result is the
error `-ENOSYS`. -/
def sErr : PgState :=
  { pgInit with g_pendingfilltcb := some tcbA, g_fillresult := -ENOSYS }

/-- Sample state: a fill for `tcbA` was started at tick 100 and no
completion has been recorded (`g_fillresult` is still `-EBUSY`). -/
def sBusy : PgState :=
  { pgInit with
    g_pendingfilltcb := some tcbA
    g_fillresult := -EBUSY
    g_starttime := 100 }

/-- Sample state: a fill for the priority-80 task `tcbB` is pending while
the worker still runs at the default priority 50. -/
def sBoost : PgState := { pgInit with g_pendingfilltcb := some tcbB }

theorem prioInsert_ne_nil (t : Tcb) (q : List Tcb) : prioInsert t q ≠ [] := by
  cases q with
  | nil => simp [prioInsert]
  | cons x xs =>
      simp only [prioInsert]
      split <;> simp

theorem prioInsert_head (t : Tcb) (q : List Tcb) :
    (prioInsert t q).head? = some t ∨
      ∃ x, q.head? = some x ∧ (prioInsert t q).head? = some x := by
  cases q with
  | nil => left; rfl
  | cons x xs =>
      simp only [prioInsert]
      split
      · left; rfl
      · right; exact ⟨x, rfl, rfl⟩

/-- Characterization of `pg_callback` when a fill is pending: the computed
boost target dominates the pending task and the queue head, and the new
state differs from the old only in `worker_prio` (raised to the target when
the target exceeds it) and `g_fillresult` (the normalized result). -/
theorem pg_callback_some (s : PgState) (t : Tcb) (r : Int) (pending : Tcb)
    (hp : s.g_pendingfilltcb = some pending) :
    ∃ priority,
      pending.sched_priority ≤ priority ∧
      (∀ u, s.g_waitingforfill.head? = some u → u.sched_priority ≤ priority) ∧
      (pg_callback s t r).1 =
        { s with
          worker_prio :=
            if s.worker_prio < priority then priority else s.worker_prio,
          g_fillresult := if r = -EBUSY then -ENOSYS else r } := by
  cases hq : s.g_waitingforfill.head? with
  | none =>
      refine ⟨pending.sched_priority, le_refl _, ?_, ?_⟩
      · intro u hu
        exact Option.noConfusion hu
      · simp only [pg_callback, hp, hq]
        split <;> first | rfl | rw [hp]
  | some htcb =>
      refine ⟨if pending.sched_priority < htcb.sched_priority then
                htcb.sched_priority else pending.sched_priority, ?_, ?_, ?_⟩
      · split <;> omega
      · intro u hu
        injection hu with h4
        subst h4
        split <;> omega
      · simp only [pg_callback, hp, hq]
        split <;> split <;> first | rfl | rw [hp]

/-- Frame components of `pg_callback`: the queue, the pending slot and the
start time are never written; the worker priority is never lowered. -/
theorem callback_components (s : PgState) (t : Tcb) (r : Int) :
    (pg_callback s t r).1.g_waitingforfill = s.g_waitingforfill ∧
    (pg_callback s t r).1.g_pendingfilltcb = s.g_pendingfilltcb ∧
    (pg_callback s t r).1.g_starttime = s.g_starttime ∧
    s.worker_prio ≤ (pg_callback s t r).1.worker_prio := by
  cases hp : s.g_pendingfilltcb with
  | none => simp [pg_callback, hp]
  | some pending =>
      obtain ⟨priority, _, _, he⟩ := pg_callback_some s t r pending hp
      rw [he]
      refine ⟨rfl, hp, rfl, ?_⟩
      show s.worker_prio ≤
        if s.worker_prio < priority then priority else s.worker_prio
      split <;> omega

theorem workerInv_init : WorkerInv pgInit := by
  refine ⟨?_, ?_, ?_⟩
  · intro u hu; cases hu
  · intro u hu; cases hu
  · intro _ _; rfl

theorem workerInv_miss (s : PgState) (t : Tcb) (h : WorkerInv s) :
    WorkerInv (pg_miss s t) := by
  obtain ⟨h1, h2, _⟩ := h
  have hle : s.worker_prio ≤ (pg_miss s t).worker_prio := by
    show s.worker_prio ≤
      if s.worker_prio < t.sched_priority then t.sched_priority
      else s.worker_prio
    split <;> omega
  have hte : t.sched_priority ≤ (pg_miss s t).worker_prio := by
    show t.sched_priority ≤
      if s.worker_prio < t.sched_priority then t.sched_priority
      else s.worker_prio
    split <;> omega
  refine ⟨?_, ?_, ?_⟩
  · intro u hu
    have hu' : s.g_pendingfilltcb = some u := hu
    exact le_trans (h1 u hu') hle
  · intro u hu
    have hu' : (prioInsert t s.g_waitingforfill).head? = some u := hu
    rcases prioInsert_head t s.g_waitingforfill with hh | ⟨x, hx, hh⟩
    · rw [hu'] at hh
      have h4 : u = t := by injection hh
      rw [h4]
      exact hte
    · rw [hu'] at hh
      have h4 : u = x := by injection hh
      rw [h4]
      exact le_trans (h2 x hx) hle
  · intro _ hq
    have hq' : prioInsert t s.g_waitingforfill = [] := hq
    exact absurd hq' (prioInsert_ne_nil t s.g_waitingforfill)

theorem workerInv_callback (s : PgState) (t : Tcb) (r : Int) (h : WorkerInv s) :
    WorkerInv (pg_callback s t r).1 := by
  obtain ⟨h1, h2, h3⟩ := h
  cases hp : s.g_pendingfilltcb with
  | none =>
      have he : (pg_callback s t r).1 = s := by simp [pg_callback, hp]
      rw [he]
      exact ⟨h1, h2, h3⟩
  | some pending =>
      obtain ⟨priority, hpend, hhead, he⟩ := pg_callback_some s t r pending hp
      rw [he]
      refine ⟨?_, ?_, ?_⟩
      · intro u hu
        have hu' : s.g_pendingfilltcb = some u := hu
        rw [hp] at hu'
        have h4 : pending = u := by injection hu'
        show u.sched_priority ≤
          if s.worker_prio < priority then priority else s.worker_prio
        rw [← h4]
        split <;> omega
      · intro u hu
        have hu' : s.g_waitingforfill.head? = some u := hu
        have := hhead u hu'
        show u.sched_priority ≤
          if s.worker_prio < priority then priority else s.worker_prio
        split <;> omega
      · intro hnone _
        have hn : s.g_pendingfilltcb = none := hnone
        rw [hp] at hn
        exact Option.noConfusion hn

theorem startfill_nb_ok (env : Env) (s s' : PgState) (ev : List Event)
    (h : pg_startfill_nb env s = .ok s' ev) :
    s'.g_waitingforfill = s.g_waitingforfill.tail ∧
    s'.worker_prio = s.worker_prio ∧
    s'.g_fillresult = s.g_fillresult := by
  cases hq : s.g_waitingforfill with
  | nil =>
      simp only [pg_startfill_nb, hq] at h
      cases h
      exact ⟨rfl, rfl, rfl⟩
  | cons tcb rest =>
      simp only [pg_startfill_nb, hq] at h
      split at h
      · cases h; exact ⟨rfl, rfl, rfl⟩
      · split at h
        · cases h
        · split at h
          · cases h
          · cases h; exact ⟨rfl, rfl, rfl⟩

theorem startfill_bl_ok (env : Env) (s s' : PgState) (ev : List Event)
    (h : pg_startfill_bl env s = .ok s' ev) :
    s'.g_waitingforfill = s.g_waitingforfill.tail ∧
    s'.worker_prio = s.worker_prio ∧
    s'.g_fillresult = s.g_fillresult := by
  cases hq : s.g_waitingforfill with
  | nil =>
      simp only [pg_startfill_bl, hq] at h
      cases h
      exact ⟨rfl, rfl, rfl⟩
  | cons tcb rest =>
      simp only [pg_startfill_bl, hq] at h
      split at h
      · cases h; exact ⟨rfl, rfl, rfl⟩
      · split at h
        · cases h
        · split at h
          · cases h
          · cases h; exact ⟨rfl, rfl, rfl⟩

theorem fillcomplete_ok (s s' : PgState) (ev : List Event)
    (h : pg_fillcomplete s = .ok s' ev) : s' = s := by
  cases hp : s.g_pendingfilltcb with
  | none => simp [pg_fillcomplete, hp] at h
  | some pending =>
      simp only [pg_fillcomplete, hp] at h
      cases h
      rfl

theorem loop_ok_empty (fuel : Nat) :
    ∀ (env : Env) (s s' : PgState) (ev : List Event),
      pg_worker_loop fuel env s = .ok s' ev → s'.g_waitingforfill = [] := by
  induction fuel with
  | zero =>
      intro env s s' ev h
      simp [pg_worker_loop] at h
  | succ n ih =>
      intro env s s' ev h
      cases hq : s.g_waitingforfill with
      | nil =>
          simp only [pg_worker_loop, hq] at h
          cases h
          exact hq
      | cons a l =>
          simp only [pg_worker_loop, hq] at h
          cases h1 : pg_startfill_nb env s with
          | fatal ev1 => simp only [h1] at h; cases h
          | ok s1 ev1 =>
              simp only [h1] at h
              cases h2 : pg_fillcomplete s1 with
              | fatal ev2 => simp only [h2] at h; cases h
              | ok s2 ev2 =>
                  simp only [h2] at h
                  cases h3 : pg_worker_loop n env s2 with
                  | fatal ev3 => simp only [h3] at h; cases h
                  | ok s3 ev3 =>
                      simp only [h3] at h
                      obtain ⟨h5, _⟩ := PRes.ok.inj h
                      rw [← h5]
                      exact ih env s2 s3 ev3 h3

theorem drain_ok_reset (env : Env) (s s' : PgState) (ev : List Event)
    (h : pg_worker_drain env s = .ok s' ev) :
    s'.g_pendingfilltcb = none ∧ s'.g_waitingforfill = [] ∧
    s'.worker_prio = CONFIG_PAGING_DEFPRIO := by
  unfold pg_worker_drain at h
  cases h1 : pg_worker_loop (s.g_waitingforfill.length + 1) env s with
  | fatal ev1 => simp only [h1] at h; cases h
  | ok s1 ev1 =>
      simp only [h1, pg_alldone] at h
      obtain ⟨h5, _⟩ := PRes.ok.inj h
      rw [← h5]
      exact ⟨rfl, loop_ok_empty _ env s s1 ev1 h1, rfl⟩

/-- Claim C1: at every observable state of the coordinator the worker's
priority is ≥ the priority of the pending-fill occupant (when present) and
≥ the priority of the fault-queue head (when non-empty), and equals
`CONFIG_PAGING_DEFPRIO` when both are empty; and no operation of this core
lowers the worker's priority except the `pg_alldone` reset to the
default. -/
theorem worker_priority_invariant :
    (∀ s, Reachable s → WorkerInv s) ∧
    (∀ s t r, s.worker_prio ≤ (pg_callback s t r).1.worker_prio) ∧
    (∀ env s s' ev, pg_startfill_nb env s = .ok s' ev →
      s'.worker_prio = s.worker_prio) ∧
    (∀ env s s' ev, pg_startfill_bl env s = .ok s' ev →
      s'.worker_prio = s.worker_prio) ∧
    (∀ s s' ev, pg_fillcomplete s = .ok s' ev →
      s'.worker_prio = s.worker_prio) ∧
    (∀ s, (pg_alldone s).1.worker_prio = CONFIG_PAGING_DEFPRIO) := by
  refine ⟨?_, ?_, ?_, ?_, ?_, ?_⟩
  · intro s h
    induction h with
    | init => exact workerInv_init
    | miss t h ih => exact workerInv_miss _ t ih
    | callback t r h ih => exact workerInv_callback _ t r ih
    | iter env h heq ih =>
        obtain ⟨a, b, c⟩ := drain_ok_reset _ _ _ _ heq
        refine ⟨?_, ?_, fun _ _ => c⟩
        · intro u hu
          rw [a] at hu
          exact Option.noConfusion hu
        · intro u hu
          rw [b] at hu
          simp at hu
  · intro s t r
    exact (callback_components s t r).2.2.2
  · intro env s s' ev h
    exact (startfill_nb_ok env s s' ev h).2.1
  · intro env s s' ev h
    exact (startfill_bl_ok env s s' ev h).2.1
  · intro s s' ev h
    rw [fillcomplete_ok s s' ev h]
  · intro s
    rfl

/-- Witness for C1 at concrete inputs: the invariant after a fault by the
priority-80 task `tcbB` in the initial state, priority preservation of
`pg_startfill` (both variants) and of `pg_fillcomplete` at concrete
states, and the `pg_alldone` reset. -/
theorem worker_priority_invariant_witness :
    WorkerInv (pg_miss pgInit tcbB) ∧
    ({ pgInit with g_pendingfilltcb := none } : PgState).worker_prio =
      pgInit.worker_prio ∧
    sPend.worker_prio = sPend.worker_prio ∧
    (pg_alldone pgInit).1.worker_prio = CONFIG_PAGING_DEFPRIO :=
  ⟨worker_priority_invariant.1 _ (Reachable.miss tcbB Reachable.init),
   worker_priority_invariant.2.2.1 env0 pgInit _ [] rfl,
   worker_priority_invariant.2.2.2.2.1 sPend sPend [Event.unblock tcbA] rfl,
   worker_priority_invariant.2.2.2.2.2 pgInit⟩

/-- Claim C2 (divergence witness): in the non-blocking configuration
(`CONFIG_PAGING_BLOCKINGFILL` undefined) the compiled worker body is the
drain arm of lines 512-533.  At a wake with a fill pending for `tcbA`, a
successful result stored, and an empty queue, that body performs the
`pg_alldone` reset only: the completed task is never unblocked, contrary
to the claimed completion processing. -/
theorem nb_config_drops_pending_task :
    pg_worker_drain envF sPend =
      .ok { sPend with
              g_pendingfilltcb := none,
              worker_prio := CONFIG_PAGING_DEFPRIO }
        [Event.setprio CONFIG_PAGING_DEFPRIO] ∧
    sPend.g_fillresult = OK ∧
    (∀ u, Event.unblock u ∉ [Event.setprio CONFIG_PAGING_DEFPRIO]) := by
  refine ⟨rfl, rfl, ?_⟩
  intro u
  simp

/-- Claim C3 (divergence witness): `pg_fillcomplete` only unblocks the
pending task; it does not clear the slot (the slot is cleared later, by
`pg_startfill` overwriting it or by `pg_alldone`). -/
theorem fillcomplete_leaves_slot :
    pg_fillcomplete sPend = .ok sPend [Event.unblock tcbA] ∧
    sPend.g_pendingfilltcb = some tcbA :=
  ⟨rfl, rfl⟩

/-- Claim C4 (divergence witness): the result-check arm (lines 450-509,
with the timeout branch excluded by its malformed guard) does nothing at a
wake where a fill for `tcbA` is pending, no result has arrived
(`g_fillresult = -EBUSY`), and the elapsed time (started at tick 100,
clock now 200) exceeds `CONFIG_PAGING_TIMEOUT_TICKS`: no fatal assertion
is raised and the state is unchanged. -/
theorem timeout_not_detected :
    pg_worker_checkbody envT sBusy = .ok sBusy [] ∧
    CONFIG_PAGING_TIMEOUT_TICKS ≤ envT.g_system_timer - sBusy.g_starttime := by
  constructor
  · rfl
  · decide

/-- Claim C5: whenever `pg_startfill` (either transport variant) dequeues a
task and `up_checkmapping` reports the page already mapped, the task is
unblocked immediately, the slot is cleared, and no page allocation and no
fill occur (the only external call is the unblock). -/
theorem startfill_dedup (env : Env) (s : PgState) (t : Tcb) (rest : List Tcb)
    (hq : s.g_waitingforfill = t :: rest) (hc : env.up_checkmapping t = OK) :
    pg_startfill_nb env s =
      .ok { s with g_waitingforfill := rest, g_pendingfilltcb := none }
        [Event.unblock t] ∧
    pg_startfill_bl env s =
      .ok { s with g_waitingforfill := rest, g_pendingfilltcb := none }
        [Event.unblock t] := by
  constructor
  · simp [pg_startfill_nb, hq, hc]
  · simp [pg_startfill_bl, hq, hc]

/-- Witness for C5: a single queued `tcbA` whose mapping is already
present is unblocked with no allocation and no fill, in both variants. -/
theorem startfill_dedup_witness :
    pg_startfill_nb env0 { pgInit with g_waitingforfill := [tcbA] } =
      .ok { pgInit with
              g_waitingforfill := ([] : List Tcb)
              g_pendingfilltcb := none }
        [Event.unblock tcbA] ∧
    pg_startfill_bl env0 { pgInit with g_waitingforfill := [tcbA] } =
      .ok { pgInit with
              g_waitingforfill := ([] : List Tcb)
              g_pendingfilltcb := none }
        [Event.unblock tcbA] :=
  startfill_dedup env0 _ tcbA [] rfl rfl

/-- Claim C6: while a fill is pending, `pg_callback` stores a `-EBUSY`
transport result as `-ENOSYS`; the stored result is never `-EBUSY` after a
completion, and the result-check evaluation of the worker treats any
stored non-`OK`, non-`-EBUSY` result as a fatal assertion failure. -/
theorem callback_busy_normalization (s : PgState) (t : Tcb) (r : Int)
    (pending : Tcb) (hp : s.g_pendingfilltcb = some pending) :
    ((pg_callback s t r).1.g_fillresult =
      if r = -EBUSY then -ENOSYS else r) ∧
    (pg_callback s t r).1.g_fillresult ≠ -EBUSY ∧
    (∀ env s2, s2.g_pendingfilltcb ≠ none → s2.g_fillresult ≠ -EBUSY →
      s2.g_fillresult ≠ OK → pg_worker_checkbody env s2 = .fatal []) := by
  obtain ⟨priority, _, _, he⟩ := pg_callback_some s t r pending hp
  refine ⟨?_, ?_, ?_⟩
  · rw [he]
  · rw [he]
    show (if r = -EBUSY then -ENOSYS else r) ≠ -EBUSY
    split
    · decide
    · rename_i hr
      exact hr
  · intro env s2 h1 h2 h3
    cases hp2 : s2.g_pendingfilltcb with
    | none => exact absurd hp2 h1
    | some pending2 => simp [pg_worker_checkbody, hp2, h2, h3]

/-- Witness for C6: a `-EBUSY` completion for the pending `tcbA` is stored
as `-ENOSYS`, and the result-check arm is fatal on the stored error. -/
theorem callback_busy_normalization_witness :
    ((pg_callback sPend tcbA (-EBUSY)).1.g_fillresult =
      if (-EBUSY : Int) = -EBUSY then -ENOSYS else -EBUSY) ∧
    (pg_callback sPend tcbA (-EBUSY)).1.g_fillresult ≠ -EBUSY ∧
    pg_worker_checkbody envF sErr = .fatal [] :=
  ⟨(callback_busy_normalization sPend tcbA (-EBUSY) tcbA rfl).1,
   (callback_busy_normalization sPend tcbA (-EBUSY) tcbA rfl).2.1,
   (callback_busy_normalization sPend tcbA (-EBUSY) tcbA rfl).2.2 envF sErr
     (by decide) (by decide) (by decide)⟩

/-- Claim C7: every invocation of `pg_callback` sends the worker's wake
signal, and when no fill is pending the signal is its only effect: the
state (result field, queue, worker priority, slot) is unchanged. -/
theorem callback_signals (s : PgState) (t : Tcb) (r : Int) :
    Event.signal ∈ (pg_callback s t r).2 ∧
    (s.g_pendingfilltcb = none → pg_callback s t r = (s, [Event.signal])) := by
  constructor
  · cases hp : s.g_pendingfilltcb with
    | none => simp [pg_callback, hp]
    | some pending => simp [pg_callback, hp]
  · intro hp
    simp [pg_callback, hp]

/-- Witness for C7 at the idle initial state: the callback signals and
returns the state unchanged. -/
theorem callback_signals_witness :
    Event.signal ∈ (pg_callback pgInit tcbA OK).2 ∧
    pg_callback pgInit tcbA OK = (pgInit, [Event.signal]) :=
  ⟨(callback_signals pgInit tcbA OK).1,
   (callback_signals pgInit tcbA OK).2 rfl⟩

/-- Counterexample to C9 as stated: with a fill pending for the
priority-80 task `tcbB` and the worker at the default priority 50,
`pg_callback` writes the worker's priority (boosting it to 80) — a state
write beyond the slot's result field — and its event trace is not just the
wake signal. -/
theorem callback_writes_worker_priority :
    (pg_callback sBoost tcbA OK).1.worker_prio ≠ sBoost.worker_prio ∧
    (pg_callback sBoost tcbA OK).2 ≠ [Event.signal] := by
  decide

/-- Claim C9 (amended): `pg_callback` never writes the fault queue, the
pending slot or the start time; besides storing the normalized result its
only effects are a possible raise of the worker's priority and the wake
signal (it never unblocks a task, allocates a page, or starts a fill). -/
theorem callback_frame (s : PgState) (t : Tcb) (r : Int) :
    (pg_callback s t r).1.g_waitingforfill = s.g_waitingforfill ∧
    (pg_callback s t r).1.g_pendingfilltcb = s.g_pendingfilltcb ∧
    (pg_callback s t r).1.g_starttime = s.g_starttime ∧
    s.worker_prio ≤ (pg_callback s t r).1.worker_prio ∧
    (∀ u, Event.unblock u ∉ (pg_callback s t r).2) ∧
    (∀ u, Event.allocpage u ∉ (pg_callback s t r).2) ∧
    (∀ u, Event.fillpage u ∉ (pg_callback s t r).2) := by
  obtain ⟨a, b, c, d⟩ := callback_components s t r
  refine ⟨a, b, c, d, ?_, ?_, ?_⟩ <;>
    · intro u
      cases hp : s.g_pendingfilltcb with
      | none => simp [pg_callback, hp]
      | some pending =>
          simp only [pg_callback, hp, List.mem_append]
          split <;> simp

/-- Claim C8: for every fill start in which the mapping is still needed,
if `up_allocpage` does not return success the operation is fatal
(`DEBUGASSERT`): no fill is started and no task is unblocked, in either
transport variant. -/
theorem startfill_allocfail (env : Env) (s : PgState) (t : Tcb)
    (rest : List Tcb) (hq : s.g_waitingforfill = t :: rest)
    (hc : env.up_checkmapping t ≠ OK) (ha : env.up_allocpage t ≠ OK) :
    pg_startfill_nb env s = .fatal [Event.allocpage t] ∧
    pg_startfill_bl env s = .fatal [Event.allocpage t] ∧
    (∀ u, Event.fillpage u ∉ [Event.allocpage t]) ∧
    (∀ u, Event.unblock u ∉ [Event.allocpage t]) := by
  refine ⟨?_, ?_, ?_, ?_⟩
  · simp [pg_startfill_nb, hq, hc, ha]
  · simp [pg_startfill_bl, hq, hc, ha]
  · intro u; simp
  · intro u; simp

/-- Witness for C8: with `tcbA` queued, mapping still needed, and
`up_allocpage` failing with `-ENOMEM`, both variants are fatal after the
allocation call alone. -/
theorem startfill_allocfail_witness :
    pg_startfill_nb envA { pgInit with g_waitingforfill := [tcbA] } =
      .fatal [Event.allocpage tcbA] ∧
    pg_startfill_bl envA { pgInit with g_waitingforfill := [tcbA] } =
      .fatal [Event.allocpage tcbA] ∧
    (∀ u, Event.fillpage u ∉ [Event.allocpage tcbA]) ∧
    (∀ u, Event.unblock u ∉ [Event.allocpage tcbA]) :=
  startfill_allocfail envA _ tcbA [] rfl (by decide) (by decide)

/-- Claim C10: `pg_startfill` (either variant) never writes
`g_fillresult`; neither do `pg_fillcomplete`, `pg_alldone` or the
(spec-modelled) `pg_miss` — among the coordinator's operations only
`pg_callback` writes the result field. -/
theorem startfill_preserves_fillresult :
    (∀ env s s' ev, pg_startfill_nb env s = .ok s' ev →
      s'.g_fillresult = s.g_fillresult) ∧
    (∀ env s s' ev, pg_startfill_bl env s = .ok s' ev →
      s'.g_fillresult = s.g_fillresult) ∧
    (∀ s s' ev, pg_fillcomplete s = .ok s' ev →
      s'.g_fillresult = s.g_fillresult) ∧
    (∀ s, (pg_alldone s).1.g_fillresult = s.g_fillresult) ∧
    (∀ s t, (pg_miss s t).g_fillresult = s.g_fillresult) := by
  refine ⟨?_, ?_, ?_, ?_, ?_⟩
  · intro env s s' ev h
    exact (startfill_nb_ok env s s' ev h).2.2
  · intro env s s' ev h
    exact (startfill_bl_ok env s s' ev h).2.2
  · intro s s' ev h
    rw [fillcomplete_ok s s' ev h]
  · intro s
    rfl
  · intro s t
    rfl

/-- Witness for C10: `pg_startfill` run on concrete states (empty queue,
and a fill started for a queued `tcbA`) leaves `g_fillresult` untouched,
as does `pg_fillcomplete`. -/
theorem startfill_preserves_fillresult_witness :
    ({ pgInit with g_pendingfilltcb := none } : PgState).g_fillresult =
      pgInit.g_fillresult ∧
    ({ pgInit with
        g_pendingfilltcb := some tcbA
        g_waitingforfill := ([] : List Tcb)
        g_starttime := 100 } : PgState).g_fillresult =
      ({ pgInit with g_waitingforfill := [tcbA] } : PgState).g_fillresult ∧
    sPend.g_fillresult = sPend.g_fillresult :=
  ⟨startfill_preserves_fillresult.1 env0 pgInit _ [] rfl,
   startfill_preserves_fillresult.1 envF
     { pgInit with g_waitingforfill := [tcbA] } _
     [Event.allocpage tcbA, Event.fillpage tcbA] rfl,
   startfill_preserves_fillresult.2.2.1 sPend sPend [Event.unblock tcbA] rfl⟩

end Paging
